import Mathlib

/-!
Verification of `great_expectations/core/config_provider.py`.

The module is embedded shallowly:
* Python `Dict[str, str]` becomes an insertion-ordered association list
  (`ValuesDict`) together with operations mirroring Python dict semantics
  (`dlookup` for `d.get(k)`, `dsetItem` for `d[k] = v`, `dupdate` for
  `d.update(other)`).
* The aggregating `ConfigurationProvider` registry (an `OrderedDict` keyed by
  the provider's runtime type) becomes a list of abstract providers, each
  carrying its kind identifier and the mapping its `get_values()` yields.
* The environment and the file system are an explicit `World` value; file
  reads return `Except OSErr String` where `OSErr` carries the `errno`.
* External collaborators that are not part of the translated source
  (`ConfigurationSubstitutor`, `YAMLHandler`, the cloud constants) are either
  quantified over or modelled from the specification, as noted at each
  definition.
-/

namespace ConfigProvider

/-- A Python `Dict[str, str]`: an insertion-ordered list of key/value pairs
whose keys are unique whenever the list was built by dict operations. -/
abbrev ValuesDict := List (String × String)

/-- Python `d.get(k)` / `d[k]`: the value at the first (for a genuine dict:
the only) occurrence of the key. -/
def dlookup (d : ValuesDict) (k : String) : Option String :=
  (d.find? (fun p => p.1 == k)).map (·.2)

/-- Python `d[k] = v` on an insertion-ordered dict: an existing key keeps its
position and gets the new value; a new key is appended at the end. -/
def dsetItem : ValuesDict → String → String → ValuesDict
  | [], k, v => [(k, v)]
  | p :: tl, k, v => if p.1 == k then (k, v) :: tl else p :: dsetItem tl k v

/-- Python `d.update(other)`: assign every entry of `other` into `d`,
in `other`'s iteration order. -/
def dupdate (d other : ValuesDict) : ValuesDict :=
  other.foldl (fun acc p => dsetItem acc p.1 p.2) d

/-- An abstract registered provider, reduced to what the aggregating
`ConfigurationProvider` observes of it: its kind (Python: its runtime type,
the registry key) and the mapping its `get_values()` returns. -/
structure AProvider where
  kind : String
  values : ValuesDict
deriving DecidableEq, Repr

/-- The state of the aggregating `ConfigurationProvider`: the `OrderedDict`
of registered providers, in registration order. -/
structure Registry where
  providers : List AProvider
deriving DecidableEq, Repr

/-- The keys of the registry's `OrderedDict`, in registration order. -/
def registeredKinds (r : Registry) : List String :=
  r.providers.map AProvider.kind

/-- The error raised by `register_provider` on a duplicate kind.  The code
raises `ValueError(f"Provider of type {type_} has already been registered!")`;
the specification names this condition `DuplicateProviderError`. -/
inductive RegError where
  | duplicateProvider (kind : String)
deriving DecidableEq, Repr

/-- `ConfigurationProvider.register_provider`: raises on a duplicate kind
before touching the registry, otherwise appends the provider.  State-passing
rendering of the Python method: the returned registry is the object's state
after the call, the `Option RegError` the exception raised, if any. -/
def register_provider (r : Registry) (p : AProvider) : Registry × Option RegError :=
  if p.kind ∈ registeredKinds r then
    (r, some (RegError.duplicateProvider p.kind))
  else
    (⟨r.providers ++ [p]⟩, none)

/-- `ConfigurationProvider.get_provider`: `self._providers.get(type_)`. -/
def get_provider (r : Registry) (kind : String) : Option AProvider :=
  r.providers.find? (fun p => p.kind == kind)

/-- `ConfigurationProvider.get_values`: start from `{}` and `update` with each
registered provider's `get_values()` in registration order. -/
def agg_get_values (r : Registry) : ValuesDict :=
  r.providers.foldl (fun acc p => dupdate acc p.values) []

/-- Registering a list of providers in order, stopping at the first error
(the Python caller would see the exception there). -/
def register_all (r : Registry) : List AProvider → Registry × Option RegError
  | [] => (r, none)
  | p :: rest =>
    match register_provider r p with
    | (r', none) => register_all r' rest
    | (r', some e) => (r', some e)

/-- The specification's merge, stated independently of the implementation:
a left-to-right fold over the providers' outputs in which a key found in a
later output overrides any earlier binding.  (Spec §3: "merging provider
outputs is a left-to-right fold over registration order; a key appearing in
two providers' outputs takes the value from whichever provider registered
later.") -/
def specMergeLookup (ds : List ValuesDict) (k : String) : Option String :=
  ds.foldl (fun acc d => match dlookup d k with | some v => some v | none => acc) none

/-! ### Dictionary lemmas -/

theorem dlookup_nil (k : String) : dlookup [] k = none := rfl

theorem dlookup_cons (a b : String) (tl : ValuesDict) (k : String) :
    dlookup ((a, b) :: tl) k = if a = k then some b else dlookup tl k := by
  by_cases h : a = k
  · simp [dlookup, List.find?, h]
  · simp only [dlookup, List.find?]
    have hb : ((a, b).1 == k) = false := by simpa using h
    simp [hb, h, dlookup]

theorem dlookup_dsetItem (d : ValuesDict) (k v k' : String) :
    dlookup (dsetItem d k v) k' = if k = k' then some v else dlookup d k' := by
  induction d with
  | nil => simp [dsetItem, dlookup_cons, dlookup_nil]
  | cons p tl ih =>
    obtain ⟨a, b⟩ := p
    by_cases hak : a = k
    · subst hak
      simp only [dsetItem, beq_self_eq_true, if_true]
      by_cases h' : a = k' <;> simp [dlookup_cons, h']
    · have hb : ((a, b).1 == k) = false := by simpa using hak
      simp only [dsetItem, hb, if_false, Bool.false_eq_true]
      by_cases hak' : a = k'
      · subst hak'
        have hkk' : ¬ k = a := fun h => hak h.symm
        simp [dlookup_cons, hkk']
      · simp [dlookup_cons, hak', ih]

theorem dlookup_eq_none_of_not_mem (d : ValuesDict) (k : String)
    (h : k ∉ d.map Prod.fst) : dlookup d k = none := by
  induction d with
  | nil => rfl
  | cons p tl ih =>
    obtain ⟨a, b⟩ := p
    simp only [List.map_cons, List.mem_cons, not_or] at h
    rw [dlookup_cons, if_neg (fun hh => h.1 hh.symm)]
    exact ih h.2

theorem dlookup_dupdate (d o : ValuesDict) (k : String)
    (ho : (o.map Prod.fst).Nodup) :
    dlookup (dupdate d o) k =
      match dlookup o k with
      | some v => some v
      | none => dlookup d k := by
  induction o generalizing d with
  | nil => simp [dupdate, dlookup_nil]
  | cons p tl ih =>
    obtain ⟨a, b⟩ := p
    simp only [List.map_cons, List.nodup_cons] at ho
    have step : dupdate d ((a, b) :: tl) = dupdate (dsetItem d a b) tl := rfl
    rw [step, ih _ ho.2, dlookup_cons]
    by_cases hak : a = k
    · subst hak
      rw [dlookup_eq_none_of_not_mem tl a ho.1]
      simp [dlookup_dsetItem]
    · simp only [hak, if_false]
      cases htl : dlookup tl k
      · simp [dlookup_dsetItem, hak]
      · rfl

theorem dlookup_foldl_dupdate (ds : List ValuesDict) (acc : ValuesDict) (k : String)
    (h : ∀ d ∈ ds, (d.map Prod.fst).Nodup) :
    dlookup (ds.foldl dupdate acc) k =
      ds.foldl (fun a d => match dlookup d k with | some v => some v | none => a)
        (dlookup acc k) := by
  induction ds generalizing acc with
  | nil => rfl
  | cons d tl ih =>
    simp only [List.foldl_cons]
    rw [ih (dupdate acc d) (fun x hx => h x (List.mem_cons_of_mem _ hx)),
      dlookup_dupdate acc d k (h d (List.mem_cons_self _ _))]

/-! ### Registry lemmas -/

theorem register_all_ok (ps : List AProvider) :
    ∀ r : Registry, ((r.providers ++ ps).map AProvider.kind).Nodup →
      register_all r ps = (⟨r.providers ++ ps⟩, none) := by
  induction ps with
  | nil => intro r _; simp [register_all]
  | cons p tl ih =>
    intro r h
    have hmem : p.kind ∉ registeredKinds r := by
      intro hk
      rw [List.map_append, List.nodup_append] at h
      exact (h.2.2 hk) (by simp)
    have hreg : register_provider r p = (⟨r.providers ++ [p]⟩, none) := by
      simp [register_provider, hmem]
    have h' : (((⟨r.providers ++ [p]⟩ : Registry).providers ++ tl).map AProvider.kind).Nodup := by
      simpa using h
    calc register_all r (p :: tl)
        = register_all ⟨r.providers ++ [p]⟩ tl := by
          simp [register_all, hreg]
      _ = (⟨(r.providers ++ [p]) ++ tl⟩, none) := ih _ h'
      _ = (⟨r.providers ++ p :: tl⟩, none) := by simp

theorem register_all_ok_nil (ps : List AProvider)
    (h : (ps.map AProvider.kind).Nodup) :
    register_all ⟨[]⟩ ps = (⟨ps⟩, none) := by
  simpa using register_all_ok ps ⟨[]⟩ (by simpa using h)

theorem get_provider_mem (ps : List AProvider) (p : AProvider)
    (hnd : (ps.map AProvider.kind).Nodup) (hp : p ∈ ps) :
    get_provider ⟨ps⟩ p.kind = some p := by
  induction ps with
  | nil => cases hp
  | cons a tl ih =>
    simp only [List.map_cons, List.nodup_cons] at hnd
    rcases List.mem_cons.mp hp with rfl | htl
    · simp [get_provider, List.find?]
    · have hne : (a.kind == p.kind) = false := by
        simp only [beq_eq_false_iff_ne, ne_eq]
        intro hk
        exact hnd.1 (hk ▸ List.mem_map_of_mem AProvider.kind htl)
      simpa [get_provider, List.find?, hne] using ih hnd.2 htl

theorem get_provider_not_mem (ps : List AProvider) (k : String)
    (hk : k ∉ ps.map AProvider.kind) :
    get_provider ⟨ps⟩ k = none := by
  induction ps with
  | nil => rfl
  | cons a tl ih =>
    simp only [List.map_cons, List.mem_cons, not_or] at hk
    have hne : (a.kind == k) = false := by simpa using Ne.symm hk.1
    simpa [get_provider, List.find?, hne] using ih hk.2

theorem get_provider_some_kind_mem (r : Registry) (k : String) (p0 : AProvider)
    (h : get_provider r k = some p0) : k ∈ registeredKinds r := by
  simp only [get_provider, Option.map] at h
  have hmem := List.mem_of_find?_eq_some h
  have hpred := List.find?_some h
  have hk : p0.kind = k := by simpa using hpred
  exact hk ▸ List.mem_map_of_mem AProvider.kind hmem

/-! ### The outside world: process environment and file system -/

/-- A Python `OSError`: the `errno` code plus the accompanying message.
Propagating the error "unmodified" means returning this very value. -/
structure OSErr where
  errno : Nat
  strerror : String
deriving DecidableEq, Repr

/-- `errno.ENOENT` (POSIX: 2), the "file not found" code. -/
def ENOENT : Nat := 2

/-- The exceptions the embedded code can raise. -/
inductive PyError where
  /-- An `OSError` escaping `get_values`, carried unmodified. -/
  | osError (e : OSErr)
  /-- Python `TypeError`, e.g. from `dict(None)`. -/
  | typeError
  /-- Python `AttributeError`, e.g. reading an attribute `__init__` never set. -/
  | attributeError
deriving DecidableEq, Repr

/-- The ambient state a `get_values()` call can observe: the process
environment (`os.environ`) and the file system (`open(path).read()`, which
either yields the file's text or raises an `OSError`). -/
structure World where
  environ : ValuesDict
  fs : String → Except OSErr String

/-! ### The external substitution engine, modelled from the spec

`great_expectations/core/config_substitutor.py` is not part of the translated
source, so the engine is (a) quantified over via the `Substitutor` interface
wherever a claim only concerns the provider code, and (b) instantiated with
`specSubstitutor`, modelled from the specification, where a claim needs the
engine's behaviour itself. -/

/-- The interface of `ConfigurationSubstitutor` as used by
`config_provider.py`: substitute one string, or substitute every string leaf
of a flat string→string mapping. -/
structure Substitutor where
  substitute_config_variable : String → ValuesDict → String
  substitute_all_config_variables : ValuesDict → ValuesDict → ValuesDict

/-- A character that may occur in a `$NAME` placeholder name. -/
def isVarChar (c : Char) : Bool := c.isAlphanum || c == '_'

/-- Modelled from the spec: one left-to-right substitution pass over a
string's characters.  At `$`, the longest run of name characters after it is
a placeholder: if the name is a key of the mapping the placeholder is
replaced by its value, otherwise it is left verbatim (spec §2: "replaces
placeholder tokens within any string leaves of the structure with
corresponding values; leaves unmatched placeholders unchanged").  The fuel
argument (instantiated with the string's length, which bounds the number of
steps) makes the recursion structural. -/
def substFuel (m : ValuesDict) : Nat → List Char → List Char
  | _, [] => []
  | 0, l => l
  | n + 1, c :: rest =>
    if c == '$' then
      let name := rest.takeWhile isVarChar
      let rest2 := rest.dropWhile isVarChar
      match dlookup m (String.mk name) with
      | some v => v.data ++ substFuel m n rest2
      | none => c :: (name ++ substFuel m n rest2)
    else
      c :: substFuel m n rest

/-- Modelled from the spec: replace every `$NAME` placeholder of `s` whose
name is a key of `m` by the mapped value, in a single pass. -/
def substituteString (m : ValuesDict) (s : String) : String :=
  String.mk (substFuel m s.data.length s.data)

/-- Modelled from the spec: the external Substitution Engine
(`ConfigurationSubstitutor`, absent from the translated source).  String
leaves are the values of the flat mapping; each is substituted once against
the given key→value mapping. -/
def specSubstitutor : Substitutor where
  substitute_config_variable := fun s m => substituteString m s
  substitute_all_config_variables := fun d m => d.map (fun p => (p.1, substituteString m p.2))

/-! ### POSIX path helpers (`os.path` as used by the source) -/

/-- `posixpath.isabs`: a path is absolute iff it starts with a slash. -/
def isabs (p : String) : Bool :=
  match p.data with
  | [] => false
  | c :: _ => c == '/'

/-- Python `a.endswith('/')`. -/
def endsWithSlash (a : String) : Bool :=
  a.data.getLast? == some '/'

/-- `posixpath.join(a, b)` for two components: `b` absolute discards `a`;
otherwise the pieces are glued with exactly one slash. -/
def pathJoin (a b : String) : String :=
  if isabs b then b
  else if a = "" ∨ endsWithSlash a then a ++ b
  else a ++ "/" ++ b

/-- Python `self._root_directory or os.curdir`: `None` and the empty string
are falsy and fall back to `os.curdir`, the literal `"."` (denoting the
current working directory). -/
def rootOrCurdir : Option String → String
  | none => "."
  | some r => if r = "" then "." else r

/-! ### ConfigurationVariablesConfigurationProvider -/

/-- The path `ConfigurationVariablesConfigurationProvider.get_values` opens:
the configured path expression with placeholders substituted against the
process environment; if the result is absolute the root directory is `""`
(and `os.path.join("", p) = p`), otherwise it is the configured root
directory defaulting to `os.curdir`. -/
def resolvedVarPath (sub : Substitutor) (config_variables_file_path : String)
    (root_directory : Option String) (env_vars : ValuesDict) : String :=
  let defined_path := sub.substitute_config_variable config_variables_file_path env_vars
  let root_dir := if ¬ isabs defined_path then rootOrCurdir root_directory else ""
  pathJoin root_dir defined_path

/-- Python `dict(x)` for `x` the parser's result: a mapping is copied, `None`
raises `TypeError` (`'NoneType' object is not iterable`). -/
def pyDict : Option ValuesDict → Except PyError ValuesDict
  | none => Except.error PyError.typeError
  | some d => Except.ok d

/-- `ConfigurationVariablesConfigurationProvider.get_values`.  The YAML
parser (`YAMLHandler`, absent from the translated source) is a parameter
`yaml_load`; `none` is a YAML `null` result, `some d` a parsed mapping.
The `try` block substitutes the configured path against `os.environ`, opens
the resolved path, computes `dict(yaml.load(contents)) or {}` and substitutes
the parsed mapping against `os.environ`; an `OSError` with `errno` other than
`ENOENT` is re-raised, an `ENOENT` one yields `{}`; any non-`OSError`
exception (such as the `TypeError` from `dict(None)`) propagates. -/
def fileGetValues (sub : Substitutor) (yaml_load : String → Option ValuesDict)
    (config_variables_file_path : String) (root_directory : Option String)
    (w : World) : Except PyError ValuesDict :=
  let env_vars := w.environ
  let var_path := resolvedVarPath sub config_variables_file_path root_directory env_vars
  match w.fs var_path with
  | Except.error e =>
    if e.errno ≠ ENOENT then Except.error (PyError.osError e) else Except.ok []
  | Except.ok contents =>
    match pyDict (yaml_load contents) with
    | Except.error e => Except.error e
    | Except.ok parsed =>
      let vars := if parsed = [] then ([] : ValuesDict) else parsed
      Except.ok (sub.substitute_all_config_variables vars env_vars)

/-! ### CloudConfigurationProvider -/

/-- `GXCloudConfig`: an opaque record of three string fields (defined in
`great_expectations/data_context/types/base.py`, outside the translated
source; the spec fixes exactly these three string fields). -/
structure GXCloudConfig where
  base_url : String
  access_token : String
  organization_id : String
deriving DecidableEq, Repr

/-- Modelled from the spec: `GXCloudEnvironmentVariable.BASE_URL`, one of the
three externally-defined variable-name constants of
`great_expectations/data_context/cloud_constants.py` (absent from the
translated source). -/
def GX_CLOUD_BASE_URL : String := "GX_CLOUD_BASE_URL"

/-- Modelled from the spec: `GXCloudEnvironmentVariable.ACCESS_TOKEN`. -/
def GX_CLOUD_ACCESS_TOKEN : String := "GX_CLOUD_ACCESS_TOKEN"

/-- Modelled from the spec: `GXCloudEnvironmentVariable.ORGANIZATION_ID`. -/
def GX_CLOUD_ORGANIZATION_ID : String := "GX_CLOUD_ORGANIZATION_ID"

/-- `CloudConfigurationProvider.get_values`: the literal three-entry dict
binding the three fixed key names to the record's fields. -/
def cloudGetValues (c : GXCloudConfig) : ValuesDict :=
  [(GX_CLOUD_BASE_URL, c.base_url),
   (GX_CLOUD_ACCESS_TOKEN, c.access_token),
   (GX_CLOUD_ORGANIZATION_ID, c.organization_id)]

/-! ### Provider objects and `substitute_config` -/

/-- A constructed provider object, as the abstract base class sees it: the
`_substitutor` attribute (`some` iff `AbstractConfigurationProvider.__init__`
ran, i.e. iff the subclass constructor called `super().__init__()`) and the
behaviour of `get_values()` in a given world. -/
structure PyProvider where
  substitutor : Option Substitutor
  get_values : World → Except PyError ValuesDict

/-- `AbstractConfigurationProvider.substitute_config`: when `config_values`
is omitted (`none`) it is first filled by `self.get_values()`; then
`self._substitutor.substitute_all_config_variables(config, config_values)`
is returned.  Reading `self._substitutor` on an object whose constructor
never set it raises `AttributeError`. -/
def PyProvider.substitute_config (p : PyProvider) (w : World) (config : ValuesDict)
    (config_values : Option ValuesDict) : Except PyError ValuesDict :=
  match (match config_values with
         | none => p.get_values w
         | some v => Except.ok v) with
  | Except.error e => Except.error e
  | Except.ok cv =>
    match p.substitutor with
    | none => Except.error PyError.attributeError
    | some s => Except.ok (s.substitute_all_config_variables config cv)

/-- `RuntimeEnvironmentConfigurationProvider`: stores the caller-supplied
mapping and calls `super().__init__()` (which sets `_substitutor` to a fresh
`ConfigurationSubstitutor`, here the parameter `sub`). -/
def mkRuntimeEnvironmentConfigurationProvider (sub : Substitutor)
    (runtime_environment : ValuesDict) : PyProvider where
  substitutor := some sub
  get_values := fun _ => Except.ok runtime_environment

/-- `EnvironmentConfigurationProvider`: its `__init__` (run in the world
`wInit`, from which it reads nothing) only calls `super().__init__()`;
`get_values()` is `dict(os.environ)` of the world current at the call. -/
def mkEnvironmentConfigurationProvider (sub : Substitutor) (_wInit : World) : PyProvider where
  substitutor := some sub
  get_values := fun w => Except.ok w.environ

/-- `ConfigurationVariablesConfigurationProvider`: stores the path expression
and optional root directory and calls `super().__init__()`. -/
def mkConfigurationVariablesConfigurationProvider (sub : Substitutor)
    (yaml_load : String → Option ValuesDict) (config_variables_file_path : String)
    (root_directory : Option String) : PyProvider where
  substitutor := some sub
  get_values := fileGetValues sub yaml_load config_variables_file_path root_directory

/-- `CloudConfigurationProvider`: its `__init__` stores the cloud config but
does NOT call `super().__init__()`, so `_substitutor` is never set. -/
def mkCloudConfigurationProvider (cloud_config : GXCloudConfig) : PyProvider where
  substitutor := none
  get_values := fun _ => Except.ok (cloudGetValues cloud_config)

/-! ### Claims about the aggregating provider -/

/-- Claim C1: for every sequence of registrations of providers of
pairwise-distinct kinds, the aggregating provider's `get_values()` returns
exactly the left-to-right merge, in registration order, of each registered
provider's `get_values()` output; a key present in two outputs takes the
value from the later-registered provider.  (Each provider's output is a
Python dict, hence has pairwise-distinct keys.) -/
theorem agg_get_values_eq_left_to_right_merge (ps : List AProvider)
    (hkinds : (ps.map AProvider.kind).Nodup)
    (hvals : ∀ p ∈ ps, (p.values.map Prod.fst).Nodup) :
    (register_all ⟨[]⟩ ps).2 = none ∧
    ∀ k, dlookup (agg_get_values (register_all ⟨[]⟩ ps).1) k
        = specMergeLookup (ps.map AProvider.values) k := by
  rw [register_all_ok_nil ps hkinds]
  refine ⟨rfl, fun k => ?_⟩
  have hfold : agg_get_values ⟨ps⟩ = (ps.map AProvider.values).foldl dupdate [] := by
    simp [agg_get_values, List.foldl_map]
  rw [hfold, dlookup_foldl_dupdate _ [] k (by simpa using hvals)]
  simp [specMergeLookup, dlookup_nil]

theorem agg_get_values_eq_left_to_right_merge_witness :
    dlookup
      (agg_get_values
        (register_all ⟨[]⟩
          [⟨"RuntimeEnvironmentConfigurationProvider", [("X", "runtime"), ("Y", "only")]⟩,
           ⟨"EnvironmentConfigurationProvider", [("X", "envval")]⟩]).1) "X"
      = specMergeLookup [[("X", "runtime"), ("Y", "only")], [("X", "envval")]] "X" ∧
    specMergeLookup [[("X", "runtime"), ("Y", "only")], [("X", "envval")]] "X"
      = some "envval" :=
  ⟨(agg_get_values_eq_left_to_right_merge
      [⟨"RuntimeEnvironmentConfigurationProvider", [("X", "runtime"), ("Y", "only")]⟩,
       ⟨"EnvironmentConfigurationProvider", [("X", "envval")]⟩]
      (by decide) (by decide)).2 "X",
   by decide⟩

/-- Claim C3: registering a provider whose kind is already registered raises
`DuplicateProviderError` (a `ValueError` in the code) and leaves the registry
unchanged — the resulting state is exactly the old registry, so the
first-registered instance of that kind is still returned by `get_provider`
and no entry is added, removed, or reordered. -/
theorem register_provider_duplicate_raises_registry_unchanged
    (r : Registry) (p p0 : AProvider) (h : get_provider r p.kind = some p0) :
    register_provider r p = (r, some (RegError.duplicateProvider p.kind)) ∧
    get_provider (register_provider r p).1 p.kind = some p0 := by
  have hmem : p.kind ∈ registeredKinds r := get_provider_some_kind_mem r p.kind p0 h
  have hreg : register_provider r p = (r, some (RegError.duplicateProvider p.kind)) := by
    simp [register_provider, hmem]
  exact ⟨hreg, by rw [hreg]; exact h⟩

theorem register_provider_duplicate_raises_registry_unchanged_witness :
    register_provider ⟨[⟨"EnvironmentConfigurationProvider", [("A", "1")]⟩]⟩
        ⟨"EnvironmentConfigurationProvider", [("B", "2")]⟩
      = (⟨[⟨"EnvironmentConfigurationProvider", [("A", "1")]⟩]⟩,
         some (RegError.duplicateProvider "EnvironmentConfigurationProvider")) ∧
    get_provider
        (register_provider ⟨[⟨"EnvironmentConfigurationProvider", [("A", "1")]⟩]⟩
          ⟨"EnvironmentConfigurationProvider", [("B", "2")]⟩).1
        "EnvironmentConfigurationProvider"
      = some ⟨"EnvironmentConfigurationProvider", [("A", "1")]⟩ :=
  register_provider_duplicate_raises_registry_unchanged
    ⟨[⟨"EnvironmentConfigurationProvider", [("A", "1")]⟩]⟩
    ⟨"EnvironmentConfigurationProvider", [("B", "2")]⟩
    ⟨"EnvironmentConfigurationProvider", [("A", "1")]⟩ rfl

/-- Claim C8: for registries built by registering providers of
pairwise-distinct kinds, `get_provider(kind)` returns the registered instance
of that kind when one was registered, and `none` (an absent result, not an
error) when no provider of that kind was ever registered. -/
theorem get_provider_registered_some_unregistered_none (ps : List AProvider)
    (hkinds : (ps.map AProvider.kind).Nodup) :
    (∀ p ∈ ps, get_provider (register_all ⟨[]⟩ ps).1 p.kind = some p) ∧
    (∀ k, k ∉ ps.map AProvider.kind → get_provider (register_all ⟨[]⟩ ps).1 k = none) := by
  rw [register_all_ok_nil ps hkinds]
  exact ⟨fun p hp => get_provider_mem ps p hkinds hp,
         fun k hk => get_provider_not_mem ps k hk⟩

theorem get_provider_registered_some_unregistered_none_witness :
    get_provider
        (register_all ⟨[]⟩
          [⟨"EnvironmentConfigurationProvider", []⟩,
           ⟨"CloudConfigurationProvider", []⟩]).1
        "CloudConfigurationProvider"
      = some ⟨"CloudConfigurationProvider", []⟩ ∧
    get_provider
        (register_all ⟨[]⟩
          [⟨"EnvironmentConfigurationProvider", []⟩,
           ⟨"CloudConfigurationProvider", []⟩]).1
        "ConfigurationVariablesConfigurationProvider"
      = none := by
  have h := get_provider_registered_some_unregistered_none
    [⟨"EnvironmentConfigurationProvider", []⟩, ⟨"CloudConfigurationProvider", []⟩]
    (by decide)
  exact ⟨h.1 ⟨"CloudConfigurationProvider", []⟩ (by decide), h.2 _ (by decide)⟩

/-! ### Claims about the variables-file provider -/

/-- Claim C2: if opening/reading the resolved variables file fails with the
file-not-found condition (`errno == ENOENT`), `get_values()` returns an empty
mapping and raises no error; an `OSError` with any other `errno` (permission
denied, is-a-directory, ...) propagates unmodified to the caller. -/
theorem file_get_values_enoent_empty_other_oserror_reraised
    (sub : Substitutor) (yaml_load : String → Option ValuesDict)
    (path : String) (root : Option String) (w : World) (e : OSErr)
    (h : w.fs (resolvedVarPath sub path root w.environ) = Except.error e) :
    fileGetValues sub yaml_load path root w =
      (if e.errno = ENOENT then Except.ok [] else Except.error (PyError.osError e)) := by
  simp only [fileGetValues]
  rw [h]
  by_cases he : e.errno = ENOENT <;> simp [he]

theorem file_get_values_enoent_empty_other_oserror_reraised_witness :
    fileGetValues specSubstitutor (fun _ => some []) "uncommitted/config_variables.yml" none
        ⟨[], fun _ => Except.error ⟨2, "No such file or directory"⟩⟩ = Except.ok [] ∧
    fileGetValues specSubstitutor (fun _ => some []) "uncommitted/config_variables.yml" none
        ⟨[], fun _ => Except.error ⟨13, "Permission denied"⟩⟩
      = Except.error (PyError.osError ⟨13, "Permission denied"⟩) := by
  constructor
  · have h := file_get_values_enoent_empty_other_oserror_reraised specSubstitutor
      (fun _ => some []) "uncommitted/config_variables.yml" none
      ⟨[], fun _ => Except.error ⟨2, "No such file or directory"⟩⟩
      ⟨2, "No such file or directory"⟩ rfl
    simpa [ENOENT] using h
  · have h := file_get_values_enoent_empty_other_oserror_reraised specSubstitutor
      (fun _ => some []) "uncommitted/config_variables.yml" none
      ⟨[], fun _ => Except.error ⟨13, "Permission denied"⟩⟩
      ⟨13, "Permission denied"⟩ rfl
    simpa [ENOENT] using h

/-- Claim C4 (code bug): the source computes
`variables = dict(yaml.load(contents)) or {}`.  When the parser returns an
empty mapping the call proceeds with an empty mapping, but when the parser
returns null (as it does for an empty variables file) `dict(None)` raises
`TypeError`, which the `except OSError` clause does not catch — contradicting
the documented tolerance (the trailing `or {}`, dead code otherwise,
evidences the intended behaviour). -/
theorem null_parse_raises_type_error :
    fileGetValues specSubstitutor (fun _ => none) "uncommitted/config_variables.yml"
        (some "/project") ⟨[], fun _ => Except.ok ""⟩ = Except.error PyError.typeError ∧
    fileGetValues specSubstitutor (fun _ => some []) "uncommitted/config_variables.yml"
        (some "/project") ⟨[], fun _ => Except.ok "{}"⟩ = Except.ok [] := by
  constructor <;> rfl

/-- Claim C6: the configured path expression first has placeholders
substituted against the process environment; if the result is absolute it is
used as-is, otherwise it is joined with the configured root directory, which
defaults to `os.curdir` (`"."`, the current working directory) when no root
directory was supplied at construction. -/
theorem resolved_path_substitute_then_abs_or_join
    (sub : Substitutor) (path : String) (root : Option String) (env : ValuesDict) :
    (isabs (sub.substitute_config_variable path env) = true →
      resolvedVarPath sub path root env = sub.substitute_config_variable path env) ∧
    (isabs (sub.substitute_config_variable path env) = false → root = none →
      resolvedVarPath sub path root env =
        pathJoin "." (sub.substitute_config_variable path env)) ∧
    (∀ r, isabs (sub.substitute_config_variable path env) = false → root = some r → r ≠ "" →
      resolvedVarPath sub path root env =
        pathJoin r (sub.substitute_config_variable path env)) := by
  refine ⟨fun habs => ?_, fun habs hroot => ?_, fun r habs hroot hr => ?_⟩
  · simp [resolvedVarPath, habs, pathJoin]
  · subst hroot
    simp [resolvedVarPath, habs, rootOrCurdir]
  · subst hroot
    simp [resolvedVarPath, habs, rootOrCurdir, hr]

theorem resolved_path_substitute_then_abs_or_join_witness :
    resolvedVarPath specSubstitutor "$GE_DIR/config_variables.yml" none
        [("GE_DIR", "uncommitted")] = "./uncommitted/config_variables.yml" ∧
    resolvedVarPath specSubstitutor "/etc/gx/config_variables.yml" (some "/project")
        [] = "/etc/gx/config_variables.yml" := by
  constructor
  · exact ((resolved_path_substitute_then_abs_or_join specSubstitutor
      "$GE_DIR/config_variables.yml" none [("GE_DIR", "uncommitted")]).2.1
      (by decide) rfl).trans (by decide)
  · exact ((resolved_path_substitute_then_abs_or_join specSubstitutor
      "/etc/gx/config_variables.yml" (some "/project") []).1 (by decide)).trans (by decide)

/-- Claim C9: the parsed file mapping is substituted in a single pass with
only the process environment as the substitution source; a chained reference
like `B: $A`, with `A` defined only in the same file, is not resolved. -/
theorem file_values_substituted_against_environment_only
    (env : ValuesDict) (contents : String) (hA : dlookup env "A" = none) :
    fileGetValues specSubstitutor (fun _ => some [("A", "1"), ("B", "$A")])
        "config_variables.yml" none ⟨env, fun _ => Except.ok contents⟩
      = Except.ok [("A", "1"), ("B", "$A")] := by
  have hB : substituteString env "$A" = "$A" := by
    have h0 : substFuel env 2 ['$', 'A']
        = match dlookup env "A" with
          | some v => v.data ++ substFuel env 1 []
          | none => '$' :: (['A'] ++ substFuel env 1 []) := rfl
    show String.mk (substFuel env 2 ['$', 'A']) = "$A"
    rw [h0, hA]
    rfl
  have h1 : substituteString env "1" = "1" := rfl
  show Except.ok
      (Substitutor.substitute_all_config_variables specSubstitutor
        [("A", "1"), ("B", "$A")] env)
    = Except.ok [("A", "1"), ("B", "$A")]
  simp [specSubstitutor, h1, hB]

theorem file_values_substituted_against_environment_only_witness :
    fileGetValues specSubstitutor (fun _ => some [("A", "1"), ("B", "$A")])
        "config_variables.yml" none
        ⟨[("HOME", "/home/user")], fun _ => Except.ok "A: 1\nB: $A"⟩
      = Except.ok [("A", "1"), ("B", "$A")] :=
  file_values_substituted_against_environment_only
    [("HOME", "/home/user")] "A: 1\nB: $A" rfl

/-! ### Claims about the cloud provider -/

/-- Claim C5 (code bug): `substitute_config` with `config_values` omitted is
meant to call `get_values()` and delegate to the substitution engine for
every provider variant — and does so for the variants whose `__init__` calls
`super().__init__()` — but `CloudConfigurationProvider.__init__` never sets
`_substitutor`, so on the cloud provider the call raises `AttributeError`
instead. -/
theorem cloud_substitute_config_attribute_error :
    (mkCloudConfigurationProvider ⟨"https://x", "tok", "org1"⟩).substitute_config
        ⟨[("NAME", "world")], fun _ => Except.ok ""⟩ [("msg", "hello $NAME")] none
      = Except.error PyError.attributeError ∧
    (mkRuntimeEnvironmentConfigurationProvider specSubstitutor
        [("NAME", "world")]).substitute_config
        ⟨[], fun _ => Except.ok ""⟩ [("msg", "hello $NAME")] none
      = Except.ok [("msg", "hello world")] := by
  constructor <;> rfl

/-- Claim C7: for every cloud config record, `get_values()` is exactly the
three-entry mapping binding the three fixed externally-defined key names to
the record's `base_url`, `access_token` and `organization_id`, and the result
does not depend on the outside world (no I/O). -/
theorem cloud_get_values_exactly_three_fixed_keys (c : GXCloudConfig) :
    cloudGetValues c =
      [(GX_CLOUD_BASE_URL, c.base_url), (GX_CLOUD_ACCESS_TOKEN, c.access_token),
       (GX_CLOUD_ORGANIZATION_ID, c.organization_id)] ∧
    (cloudGetValues c).length = 3 ∧
    ((cloudGetValues c).map Prod.fst).Nodup ∧
    dlookup (cloudGetValues c) GX_CLOUD_BASE_URL = some c.base_url ∧
    dlookup (cloudGetValues c) GX_CLOUD_ACCESS_TOKEN = some c.access_token ∧
    dlookup (cloudGetValues c) GX_CLOUD_ORGANIZATION_ID = some c.organization_id ∧
    (∀ w w' : World, (mkCloudConfigurationProvider c).get_values w
        = (mkCloudConfigurationProvider c).get_values w') := by
  refine ⟨rfl, rfl,
    (by decide :
      ([GX_CLOUD_BASE_URL, GX_CLOUD_ACCESS_TOKEN, GX_CLOUD_ORGANIZATION_ID] : List String).Nodup),
    rfl, rfl, rfl, fun w w' => rfl⟩

/-! ### Claim about the process-environment provider -/

/-- Claim C10: the process-environment provider's `get_values()` snapshots
the process environment at the moment of the call, independently of the
environment at construction time; two calls under different environments
return accordingly different results. -/
theorem environment_get_values_snapshot_at_call
    (sub : Substitutor) (wInit w1 w2 : World) :
    (mkEnvironmentConfigurationProvider sub wInit).get_values w1 = Except.ok w1.environ ∧
    (mkEnvironmentConfigurationProvider sub wInit).get_values w2 = Except.ok w2.environ ∧
    (w1.environ ≠ w2.environ →
      (mkEnvironmentConfigurationProvider sub wInit).get_values w1
        ≠ (mkEnvironmentConfigurationProvider sub wInit).get_values w2) := by
  refine ⟨rfl, rfl, fun hne heq => hne ?_⟩
  simpa [mkEnvironmentConfigurationProvider] using heq

theorem environment_get_values_snapshot_at_call_witness :
    (mkEnvironmentConfigurationProvider specSubstitutor
        ⟨[("X", "old")], fun _ => Except.ok ""⟩).get_values
        ⟨[("X", "1")], fun _ => Except.ok ""⟩
      ≠ (mkEnvironmentConfigurationProvider specSubstitutor
        ⟨[("X", "old")], fun _ => Except.ok ""⟩).get_values
        ⟨[("X", "2")], fun _ => Except.ok ""⟩ :=
  (environment_get_values_snapshot_at_call specSubstitutor
    ⟨[("X", "old")], fun _ => Except.ok ""⟩
    ⟨[("X", "1")], fun _ => Except.ok ""⟩
    ⟨[("X", "2")], fun _ => Except.ok ""⟩).2.2 (by decide)

end ConfigProvider
